import Mathlib

/-!
Verification development for the vibe-similarity recommendation pipeline and the
credential lifecycle manager of the MAIA-Entertainment repository.

The Python modules are shallowly embedded as Lean definitions:
* feature dictionaries (`Dict[str, float]`) become association lists `List (String × ℝ)`;
* network and audio-decoding collaborators (httpx fetches, librosa decoding) become
  injected oracle functions, so that every pipeline function is a pure function of
  its oracles;
* the librosa measurement values themselves (tempo, RMS, spectral means) are the
  numeric inputs of the embedded extractor functions, which perform exactly the
  arithmetic of the source on them.
-/

/-- A Python `Dict[str, float]` feature vector, embedded as an association list.
Python dicts have unique keys and preserve insertion order, which the list models. -/
abbrev FeatVec := List (String × ℝ)

/-- The ordered key list of a feature dict (Python `vec.keys()`). -/
def vecKeys (v : FeatVec) : List String := v.map Prod.fst

/-- Python `str.lower()`, character by character (the vibe labels are ASCII). -/
def pyLower (s : String) : String := ⟨s.data.map Char.toLower⟩

/-- Python `vec.get(k, 0.0)` / `vec[k]`: value of the first entry with key `k`,
defaulting to `0.0` for a missing key. -/
def vecGet : FeatVec → String → ℝ
  | [], _ => 0
  | p :: ps, k => if p.1 = k then p.2 else vecGet ps k

namespace StudentTracksMod

/-- One entry of the hard-coded `STUDENT_TRACKS` seed list of
`src/app/student_tracks.py`. -/
structure StudentTrack where
  id : String
  title : String
  artist : String
  vibe : String
  audio_url : String
deriving DecidableEq, Repr

/-- The hard-coded seed data `STUDENT_TRACKS` of `src/app/student_tracks.py`. -/
def STUDENT_TRACKS : List StudentTrack := [
  { id := "student_focus_1", title := "Takes a While", artist := "Alexine Sakkers",
    vibe := "focus",
    audio_url := "https://drive.google.com/uc?export=download&id=11DTWdZNWDLgpPjhxGC5XssqBS0cog5t6" },
  { id := "student_creative_1", title := "Idea Flow", artist := "Student B",
    vibe := "creative", audio_url := "https://example.com/student_creative_1.mp3" },
  { id := "student_mellow_1", title := "Calm Evening", artist := "Student C",
    vibe := "mellow", audio_url := "https://example.com/student_mellow_1.mp3" }]

/-- Embeds `get_student_tracks_for_vibe`: all student tracks whose vibe label matches
case-insensitively. -/
def get_student_tracks_for_vibe (vibe : String) : List StudentTrack :=
  STUDENT_TRACKS.filter (fun t => pyLower t.vibe = pyLower vibe)

/-- The 5-dimensional raw-spectral extractor `extract_features_from_audio_bytes` of
`src/app/student_tracks.py`. Its inputs are the librosa measurements computed from
the decoded signal (tempo, mean RMS, mean zero-crossing rate, mean spectral centroid,
mean spectral bandwidth); the function returns them as the feature dict of the source,
in the insertion order of the source. -/
def extract_features_from_audio_bytes (tempo energy zcr centroid bandwidth : ℝ) : FeatVec :=
  [("tempo", tempo), ("energy", energy), ("zcr", zcr),
   ("centroid", centroid), ("bandwidth", bandwidth)]

/-- The fixed key list `keys = ["tempo", "energy", "zcr", "centroid", "bandwidth"]`
used by `get_reference_features_for_vibe` when averaging. -/
def refVectorKeys : List String := ["tempo", "energy", "zcr", "centroid", "bandwidth"]

/-- The `feature_list` built by `get_reference_features_for_vibe`: the feature
vectors of the matching seed tracks whose fetch+extraction succeeded, in seed-list
order. The fetch+decode collaborator (`get_features_for_student_track`, i.e. httpx
download plus librosa analysis plus the idempotent per-track cache) is injected as
the oracle `fetchFeats : id → url → Option FeatVec`; `none` models a failed fetch
or extraction. -/
def seedFeatureList (vibe : String)
    (fetchFeats : String → String → Option FeatVec) : List FeatVec :=
  (get_student_tracks_for_vibe vibe).filterMap (fun t => fetchFeats t.id t.audio_url)

/-- The dimension-wise arithmetic mean `s / n` computed by
`get_reference_features_for_vibe` for one key. -/
noncomputable def seedMean (feature_list : List FeatVec) (k : String) : ℝ :=
  (feature_list.map (fun f => vecGet f k)).sum / (feature_list.length : ℝ)

/-- Embeds `get_reference_features_for_vibe`: returns `none` (Python `None`, the NotFound
case) when no seed track matches the vibe case-insensitively or when every matching
seed fails extraction, otherwise the dimension-wise arithmetic mean over the
successfully extracted vectors, over the fixed key list. -/
noncomputable def get_reference_features_for_vibe
    (vibe : String) (fetchFeats : String → String → Option FeatVec) : Option FeatVec :=
  if (get_student_tracks_for_vibe vibe).isEmpty then none
  else if (seedFeatureList vibe fetchFeats).isEmpty then none
  else some (refVectorKeys.map (fun k =>
    (k, seedMean (seedFeatureList vibe fetchFeats) k)))

end StudentTracksMod

namespace AudioFeatures

/-- The librosa measurements that `extract_features_from_audio_bytes` of
`src/app/audio_features.py` computes from the decoded mono signal: beat-tracked
tempo, mean RMS, mean spectral centroid, mean spectral rolloff, and mean onset
strength. -/
structure Measurements where
  tempo : ℝ
  rms : ℝ
  centroid : ℝ
  rolloff : ℝ
  onsetMean : ℝ

/-- Clamp to [0, 1], as the repeated `min(1.0, max(0.0, x))` idiom of the source. -/
noncomputable def clamp01 (x : ℝ) : ℝ := min 1 (max 0 x)

/-- Embeds `_estimate_energy`: log-scaled RMS clamped to [0, 1]. -/
noncomputable def estimate_energy (rms : ℝ) : ℝ :=
  clamp01 (Real.logb 10 (1 + 9 * rms))

/-- Embeds `_estimate_valence_like`: mean spectral centroid over 8000, clamped to [0, 1]. -/
noncomputable def estimate_valence_like (centroid : ℝ) : ℝ := clamp01 (centroid / 8000)

/-- Embeds `_estimate_acousticness_like`: one minus the clamped rolloff over Nyquist. -/
noncomputable def estimate_acousticness_like (rolloff sr : ℝ) : ℝ :=
  1 - clamp01 (rolloff / (sr / 2))

/-- Embeds `_estimate_danceability_like`: 0.6 times tempo normalized to [60, 180] BPM plus
0.4 times onset strength over 10, each term clamped to [0, 1]. -/
noncomputable def estimate_danceability_like (tempo onsetMean : ℝ) : ℝ :=
  0.6 * clamp01 ((tempo - 60) / (180 - 60)) + 0.4 * clamp01 (onsetMean / 10)

/-- The 6-dimensional semantic extractor `extract_features_from_audio_bytes` of
`src/app/audio_features.py`, applied to the librosa measurements of a successfully
decoded signal of at least one second (decode failure and short audio return `None`
in the source and are modelled by the `Option` at the fetch-oracle level). -/
noncomputable def extract_features_from_audio_bytes (sr : ℝ) (m : Measurements) : FeatVec :=
  [("tempo", m.tempo),
   ("energy", estimate_energy m.rms),
   ("valence", estimate_valence_like m.centroid),
   ("acousticness", estimate_acousticness_like m.rolloff sr),
   ("danceability", estimate_danceability_like m.tempo m.onsetMean),
   ("instrumentalness", 0)]

end AudioFeatures

namespace SpotifyMod

/-- A persisted `UserToken` row (`src/app/models.py`), as read and rewritten by
`ensure_valid_token`. -/
structure UserToken where
  spotify_user_id : String
  access_token : String
  refresh_token : String
  token_scope : String
  token_expires_at : ℤ
deriving DecidableEq, Repr

/-- The JSON body returned by the Spotify token endpoint for a successful refresh:
`access_token` plus the optional `expires_in` read via `.get("expires_in", 3600)`. -/
structure TokenResponse where
  access_token : String
  expires_in : Option ℤ
deriving DecidableEq, Repr

/-- Result of `refresh_access_token` under tenacity
`retry(stop=stop_after_attempt(3), wait=wait_fixed(1))`: the outcome of the first
successful attempt (or `none` after three failures), the number of attempts made,
and the list of fixed 1-second waits slept between attempts. The endpoint oracle
maps the attempt number (1-based) to the outcome of that attempt. -/
def refresh_access_token (endpoint : ℕ → Option TokenResponse) :
    Option TokenResponse × ℕ × List ℕ :=
  match endpoint 1 with
  | some r => (some r, 1, [])
  | none =>
    match endpoint 2 with
    | some r => (some r, 2, [1])
    | none =>
      match endpoint 3 with
      | some r => (some r, 3, [1, 1])
      | none => (none, 3, [1, 1])

/-- Result record of the embedded `ensure_valid_token`: the returned credential
(`none` models the RefreshFailed exception escaping to the caller), the number of
persistent-store writes performed (`db.add` + `db.commit`), the number of refresh
attempts made against the token endpoint, and the waits slept. -/
structure EnsureResult where
  result : Option UserToken
  saves : ℕ
  attempts : ℕ
  waits : List ℕ
deriving DecidableEq, Repr

/-- Embeds `ensure_valid_token`: if `time.time() < token_expires_at - 30` the credential is
returned unchanged with no refresh call and no store write; otherwise the refresh is
attempted (up to 3 tries) and on success the new access token and the recomputed
expiry `int(time.time()) + expires_in` are committed exactly once before the
refreshed credential is returned. `now` embeds `time.time()`. -/
def ensure_valid_token (now : ℚ) (user : UserToken)
    (endpoint : ℕ → Option TokenResponse) : EnsureResult :=
  if now < (user.token_expires_at : ℚ) - 30 then
    { result := some user, saves := 0, attempts := 0, waits := [] }
  else
    match refresh_access_token endpoint with
    | (none, attempts, waits) =>
      { result := none, saves := 0, attempts := attempts, waits := waits }
    | (some r, attempts, waits) =>
      { result := some { user with
          access_token := r.access_token,
          token_expires_at := ⌊now⌋ + (r.expires_in.getD 3600) },
        saves := 1, attempts := attempts, waits := waits }

end SpotifyMod

namespace AppleMod

/-- The list `keys = [k for k in vec_a.keys() if k in vec_b]` of `cosine_similarity`:
the keys of the first dict that are also keys of the second, in first-dict order. -/
def sharedKeys (vec_a vec_b : FeatVec) : List String :=
  (vecKeys vec_a).filter (fun k => k ∈ vecKeys vec_b)

/-- The accumulated `dot` of the `cosine_similarity` loop. -/
def dotOver (vec_a vec_b : FeatVec) : ℝ :=
  ((sharedKeys vec_a vec_b).map (fun k => vecGet vec_a k * vecGet vec_b k)).sum

/-- The accumulated `norm_a` of the `cosine_similarity` loop (sum of squares of the
first dict restricted to the shared keys). -/
def normOverA (vec_a vec_b : FeatVec) : ℝ :=
  ((sharedKeys vec_a vec_b).map (fun k => vecGet vec_a k * vecGet vec_a k)).sum

/-- The accumulated `norm_b` of the `cosine_similarity` loop. -/
def normOverB (vec_a vec_b : FeatVec) : ℝ :=
  ((sharedKeys vec_a vec_b).map (fun k => vecGet vec_b k * vecGet vec_b k)).sum

/-- Embeds `cosine_similarity` of `src/app/apple.py`: 0 when no keys are shared, 0 when
either restricted norm accumulator is zero, otherwise `dot / sqrt(norm_a * norm_b)`. -/
noncomputable def cosine_similarity (vec_a vec_b : FeatVec) : ℝ :=
  if sharedKeys vec_a vec_b = [] then 0
  else if normOverA vec_a vec_b = 0 ∨ normOverB vec_a vec_b = 0 then 0
  else dotOver vec_a vec_b / Real.sqrt (normOverA vec_a vec_b * normOverB vec_a vec_b)

/-- An Apple Music catalog song object, restricted to the fields the pipeline reads:
`track.get("id")`, the attributes `name`, `artistName`, `albumName`, `url`, and the
`previews` list, each preview carrying an optional `url`. -/
structure AppleTrack where
  id : Option String
  name : Option String
  artistName : Option String
  albumName : Option String
  url : Option String
  previews : List (Option String)

/-- Embeds `extract_preview_features_for_track`, with the download+librosa step
(`extract_features_from_url`) injected as `extractOracle : url → Option FeatVec`.
Returns `none` when the track has no previews, when the first preview lacks a url,
or when extraction fails; on success the source attaches the preview url into the
feature dict, modelled here by returning the pair of the numeric feature dict and
the preview url. -/
def extract_preview_features_for_track (extractOracle : String → Option FeatVec)
    (track : AppleTrack) : Option (FeatVec × String) :=
  match track.previews with
  | [] => none
  | p :: _ =>
    match p with
    | none => none
    | some preview_url =>
      match extractOracle preview_url with
      | none => none
      | some feats => some (feats, preview_url)

/-- One element of the `scored_tracks` list built by `recommend_tracks_for_vibe`. -/
structure ScoredTrack where
  id : Option String
  name : Option String
  artist_name : Option String
  album_name : Option String
  preview_url : Option String
  apple_music_url : Option String
  features : FeatVec
  similarity : ℝ

/-- The candidate loop of `recommend_tracks_for_vibe`: for each raw candidate, skip
it unless preview features can be extracted, restrict the extracted dict to the keys
of the reference (the `isinstance` guard only excludes the attached non-numeric
`preview_url` entry, which is kept separate here), score it against the reference
with `cosine_similarity`, and collect the scored record, in candidate order. -/
noncomputable def scoredTracksFor (ref_features : FeatVec) (raw_candidates : List AppleTrack)
    (extractOracle : String → Option FeatVec) : List ScoredTrack :=
  raw_candidates.filterMap (fun track =>
    match extract_preview_features_for_track extractOracle track with
    | none => none
    | some (feats, preview_url) =>
      let feature_vector := feats.filter (fun p => p.1 ∈ vecKeys ref_features)
      some { id := track.id, name := track.name, artist_name := track.artistName,
             album_name := track.albumName, preview_url := some preview_url,
             apple_music_url := track.url, features := feature_vector,
             similarity := cosine_similarity ref_features feature_vector })

/-- Insert a track into an already-sorted (descending) list, before the first
element whose similarity does not exceed it: with the fold of `sortBySimDesc` this
realizes the stable descending sort performed by Python
`scored_tracks.sort(key=lambda t: t["similarity"], reverse=True)`. -/
noncomputable def insertDescBySim (x : ScoredTrack) : List ScoredTrack → List ScoredTrack
  | [] => [x]
  | y :: ys =>
    if y.similarity ≤ x.similarity then x :: y :: ys else y :: insertDescBySim x ys

/-- Stable descending sort by similarity, modelling Python list.sort with
`reverse=True` (a stable sort; ties keep input order). -/
noncomputable def sortBySimDesc : List ScoredTrack → List ScoredTrack
  | [] => []
  | x :: xs => insertDescBySim x (sortBySimDesc xs)

/-- Python slicing `l[:limit]` for an integer `limit`: the first `limit` elements
when `limit` is nonnegative, and all but the last `-limit` elements when negative. -/
def pyTakeSlice (limit : ℤ) (l : List α) : List α :=
  if 0 ≤ limit then l.take limit.toNat else l.take (l.length - (-limit).toNat)

/-- The `scored_tracks` list that `recommend_tracks_for_vibe` builds before sorting:
empty when the reference profile is absent (or, as Python falsiness also covers, an
empty dict), otherwise the scored candidates returned by the search collaborator
`search_tracks_for_vibe vibe storefront 50` (injected as `searchOracle`). -/
noncomputable def scoredFor (vibe storefront : String)
    (fetchFeats : String → String → Option FeatVec)
    (searchOracle : String → String → ℕ → List AppleTrack)
    (extractOracle : String → Option FeatVec) : List ScoredTrack :=
  match StudentTracksMod.get_reference_features_for_vibe vibe fetchFeats with
  | none => []
  | some ref_features =>
    if ref_features.isEmpty then []
    else scoredTracksFor ref_features (searchOracle vibe storefront 50) extractOracle

/-- Embeds `recommend_tracks_for_vibe` of `src/app/apple.py`: look up the vibe reference
profile (returning `[]` when it is absent, the `if not ref_features` early return),
search the catalog for 50 raw candidates, score the candidates with extractable
preview features by cosine similarity to the reference, sort descending by score
(stably), and truncate to `limit` by Python slicing. -/
noncomputable def recommend_tracks_for_vibe (vibe storefront : String) (limit : ℤ)
    (fetchFeats : String → String → Option FeatVec)
    (searchOracle : String → String → ℕ → List AppleTrack)
    (extractOracle : String → Option FeatVec) : List ScoredTrack :=
  match StudentTracksMod.get_reference_features_for_vibe vibe fetchFeats with
  | none => []
  | some ref_features =>
    if ref_features.isEmpty then []
    else
      pyTakeSlice limit
        (sortBySimDesc
          (scoredTracksFor ref_features (searchOracle vibe storefront 50) extractOracle))

/-- Request body of the `/apple/recommend` route (`AppleRecommendIn`). -/
structure AppleRecommendIn where
  user_token : Option String
  vibe : String
  storefront : String
  limit : ℤ

/-- Response of the `/apple/recommend` route: either an HTTPException with a status
code and detail (the request-terminating failure channel of the route layer), or the
success payload `AppleRecommendOut` with `ok=True`, the vibe, the count and the
track list. -/
inductive RouteResponse where
  | error (status : ℕ) (detail : String)
  | ok (vibe : String) (count : ℕ) (tracks : List ScoredTrack)

/-- The `apple_recommend` route handler of `src/app/apple_main.py`: rejects
`limit <= 0` with HTTP 400 before anything else runs (in particular before any
collaborator oracle is consulted), otherwise returns the recommendation list as a
successful response. -/
noncomputable def apple_recommend (body : AppleRecommendIn)
    (fetchFeats : String → String → Option FeatVec)
    (searchOracle : String → String → ℕ → List AppleTrack)
    (extractOracle : String → Option FeatVec) : RouteResponse :=
  if body.limit ≤ 0 then .error 400 "limit must be > 0"
  else
    let tracks := recommend_tracks_for_vibe body.vibe body.storefront body.limit
      fetchFeats searchOracle extractOracle
    .ok body.vibe tracks.length tracks

end AppleMod

section Fixtures

open StudentTracksMod AudioFeatures AppleMod

/-- A concrete 5-dimensional raw-spectral seed vector, as produced by the student
extractor on concrete librosa measurements. -/
def focusRawVec : FeatVec :=
  StudentTracksMod.extract_features_from_audio_bytes 100 1 1 2000 1500

/-- A concrete seed-fetch oracle: extraction succeeds for the focus seed track only. -/
def fetchFocus : String → String → Option FeatVec :=
  fun id _ => if id = "student_focus_1" then some focusRawVec else none

/-- A seed-fetch oracle for which every fetch or extraction fails. -/
def fetchNothing : String → String → Option FeatVec := fun _ _ => none

/-- A concrete 6-dimensional semantic candidate vector, as produced by the
audio-features extractor on concrete librosa measurements. -/
noncomputable def semCandidateVec : FeatVec :=
  AudioFeatures.extract_features_from_audio_bytes 22050
    { tempo := 120, rms := 0, centroid := 3000, rolloff := 5000, onsetMean := 2 }

/-- A concrete catalog candidate with a usable preview url. -/
def candidateTrack : AppleTrack :=
  { id := some "song1", name := some "Song One", artistName := some "Artist",
    albumName := some "Album", url := some "https://music.example/song1",
    previews := [some "https://audio.example/preview1.m4a"] }

/-- A concrete catalog candidate with an empty previews list. -/
def candidateNoPreview : AppleTrack :=
  { id := some "song2", name := some "Song Two", artistName := some "Artist",
    albumName := some "Album", url := some "https://music.example/song2",
    previews := [] }

/-- A concrete search oracle returning one usable candidate. -/
def searchOne : String → String → ℕ → List AppleTrack := fun _ _ _ => [candidateTrack]

/-- A concrete search oracle returning a preview-less candidate followed by a
usable one. -/
def searchTwo : String → String → ℕ → List AppleTrack :=
  fun _ _ _ => [candidateNoPreview, candidateTrack]

/-- A concrete preview-extraction oracle that always yields the semantic vector. -/
noncomputable def extractSem : String → Option FeatVec := fun _ => some semCandidateVec

/-- A stored credential whose expiry is 10 seconds after the witness clock 1000. -/
def userExpiring : SpotifyMod.UserToken :=
  { spotify_user_id := "u1", access_token := "oldtok", refresh_token := "r1",
    token_scope := "scope", token_expires_at := 1010 }

/-- A stored credential whose expiry is 3600 seconds after the witness clock 1000. -/
def userFresh : SpotifyMod.UserToken :=
  { spotify_user_id := "u1", access_token := "oldtok", refresh_token := "r1",
    token_scope := "scope", token_expires_at := 4600 }

/-- A successful token-endpoint response body. -/
def freshResponse : SpotifyMod.TokenResponse :=
  { access_token := "newtok", expires_in := some 3600 }

/-- A token endpoint that fails on attempts 1 and 2 and succeeds on attempt 3. -/
def endpointThirdTry : ℕ → Option SpotifyMod.TokenResponse :=
  fun n => if n = 3 then some freshResponse else none

/-- A token endpoint that always fails. -/
def endpointFail : ℕ → Option SpotifyMod.TokenResponse := fun _ => none

end Fixtures

open AppleMod StudentTracksMod SpotifyMod

/-- A missing key defaults to 0 and a present key yields a stored value, so a dict
with nonnegative values has nonnegative lookups. -/
theorem vecGet_nonneg (v : FeatVec) (k : String) (h : ∀ p ∈ v, 0 ≤ p.2) :
    0 ≤ vecGet v k := by
  induction v with
  | nil => simp [vecGet]
  | cons p ps ih =>
    rw [vecGet]
    split
    · exact h p (by simp)
    · exact ih (fun q hq => h q (by simp [hq]))

/-- Lookup in a dict built by tabulating `g` over a key list returns `g k` for any
listed key. -/
theorem vecGet_map_mem (keys : List String) (g : String → ℝ) (k : String)
    (hk : k ∈ keys) : vecGet (keys.map (fun x => (x, g x))) k = g k := by
  induction keys with
  | nil => cases hk
  | cons a as ih =>
    rw [List.map_cons, vecGet]
    rcases List.mem_cons.1 hk with rfl | hk2
    · simp
    · split
      · next heq => rw [← heq]
      · exact ih hk2

/-- A sum of squares over a key list is nonnegative. -/
theorem list_mul_self_sum_nonneg (f : String → ℝ) (keys : List String) :
    0 ≤ (keys.map fun k => f k * f k).sum := by
  apply List.sum_nonneg
  intro x hx
  rcases List.mem_map.1 hx with ⟨k, _, rfl⟩
  exact mul_self_nonneg _

/-- Cross-term bound used in the inductive step of the Cauchy-Schwarz inequality. -/
theorem cs_cross_term (a b S A B : ℝ) (hA : 0 ≤ A) (hB : 0 ≤ B) (hS : S ^ 2 ≤ A * B) :
    2 * (a * b) * S ≤ a ^ 2 * B + A * b ^ 2 := by
  have h1 : |S| ≤ Real.sqrt (A * B) := by
    rw [← Real.sqrt_sq_eq_abs]
    exact Real.sqrt_le_sqrt hS
  calc 2 * (a * b) * S ≤ |2 * (a * b) * S| := le_abs_self _
    _ = 2 * (|a| * |b|) * |S| := by rw [abs_mul, abs_mul, abs_two, abs_mul]
    _ ≤ 2 * (|a| * |b|) * Real.sqrt (A * B) := by
        apply mul_le_mul_of_nonneg_left h1
        positivity
    _ = 2 * (|a| * Real.sqrt B) * (|b| * Real.sqrt A) := by
        rw [Real.sqrt_mul hA]
        ring
    _ ≤ (|a| * Real.sqrt B) ^ 2 + (|b| * Real.sqrt A) ^ 2 := two_mul_le_add_sq _ _
    _ = a ^ 2 * B + A * b ^ 2 := by
        rw [mul_pow, mul_pow, sq_abs, sq_abs, Real.sq_sqrt hA, Real.sq_sqrt hB]
        ring

/-- Cauchy-Schwarz inequality for sums over a key list. -/
theorem list_cauchy_schwarz (f g : String → ℝ) (keys : List String) :
    ((keys.map fun k => f k * g k).sum) ^ 2 ≤
      ((keys.map fun k => f k * f k).sum) * ((keys.map fun k => g k * g k).sum) := by
  induction keys with
  | nil => simp
  | cons a as ih =>
    simp only [List.map_cons, List.sum_cons]
    have hA := list_mul_self_sum_nonneg f as
    have hB := list_mul_self_sum_nonneg g as
    have key := cs_cross_term (f a) (g a) ((as.map fun k => f k * g k).sum)
      ((as.map fun k => f k * f k).sum) ((as.map fun k => g k * g k).sum) hA hB ih
    nlinarith [key, ih]

/-- The three loop accumulators of `cosine_similarity` coincide on a self
comparison. -/
theorem dotOver_self (a : FeatVec) : dotOver a a = normOverA a a := rfl

/-- The second norm accumulator equals the first on a self comparison. -/
theorem normOverB_self (a : FeatVec) : normOverB a a = normOverA a a := rfl

/-- The first norm accumulator is a sum of squares, hence nonnegative. -/
theorem normOverA_nonneg (a b : FeatVec) : 0 ≤ normOverA a b :=
  list_mul_self_sum_nonneg (fun k => vecGet a k) (sharedKeys a b)

/-- The second norm accumulator is a sum of squares, hence nonnegative. -/
theorem normOverB_nonneg (a b : FeatVec) : 0 ≤ normOverB a b :=
  list_mul_self_sum_nonneg (fun k => vecGet b k) (sharedKeys a b)

/-- On dicts with nonnegative values the dot accumulator is nonnegative. -/
theorem dotOver_nonneg (a b : FeatVec) (ha : ∀ p ∈ a, 0 ≤ p.2) (hb : ∀ p ∈ b, 0 ≤ p.2) :
    0 ≤ dotOver a b := by
  apply List.sum_nonneg
  intro x hx
  rcases List.mem_map.1 hx with ⟨k, _, rfl⟩
  exact mul_nonneg (vecGet_nonneg a k ha) (vecGet_nonneg b k hb)

/-- Cosine similarity of a dict with itself is exactly 1 whenever at least one key
is shared and the restricted norm accumulator is nonzero. -/
theorem cosine_similarity_self (a : FeatVec) (h1 : sharedKeys a a ≠ [])
    (h2 : normOverA a a ≠ 0) : cosine_similarity a a = 1 := by
  have hB : normOverB a a ≠ 0 := by rw [normOverB_self]; exact h2
  rw [cosine_similarity, if_neg h1, if_neg (by push_neg; exact ⟨h2, hB⟩)]
  rw [dotOver_self, normOverB_self, Real.sqrt_mul_self (normOverA_nonneg a a)]
  exact div_self h2

/-- Cosine similarity returns exactly 0 when no key is shared or when either
restricted norm accumulator is zero. -/
theorem cosine_similarity_zero_cases (a b : FeatVec)
    (h : sharedKeys a b = [] ∨ normOverA a b = 0 ∨ normOverB a b = 0) :
    cosine_similarity a b = 0 := by
  by_cases hs : sharedKeys a b = []
  · rw [cosine_similarity, if_pos hs]
  · rcases h with h | h
    · exact absurd h hs
    · rw [cosine_similarity, if_neg hs, if_pos h]

/-- On dicts with nonnegative values, cosine similarity lies in [0, 1]. -/
theorem cosine_similarity_mem_Icc (a b : FeatVec)
    (ha : ∀ p ∈ a, 0 ≤ p.2) (hb : ∀ p ∈ b, 0 ≤ p.2) :
    0 ≤ cosine_similarity a b ∧ cosine_similarity a b ≤ 1 := by
  rw [cosine_similarity]
  split_ifs with h1 h2
  · norm_num
  · norm_num
  · push_neg at h2
    have hApos : 0 < normOverA a b := (normOverA_nonneg a b).lt_of_ne (Ne.symm h2.1)
    have hBpos : 0 < normOverB a b := (normOverB_nonneg a b).lt_of_ne (Ne.symm h2.2)
    have hdot : 0 ≤ dotOver a b := dotOver_nonneg a b ha hb
    have hsq : 0 < Real.sqrt (normOverA a b * normOverB a b) :=
      Real.sqrt_pos.2 (mul_pos hApos hBpos)
    constructor
    · exact div_nonneg hdot hsq.le
    · rw [div_le_one hsq]
      have hcs : (dotOver a b) ^ 2 ≤ normOverA a b * normOverB a b :=
        list_cauchy_schwarz (fun k => vecGet a k) (fun k => vecGet b k) (sharedKeys a b)
      calc dotOver a b = Real.sqrt ((dotOver a b) ^ 2) := (Real.sqrt_sq hdot).symm
        _ ≤ Real.sqrt (normOverA a b * normOverB a b) := Real.sqrt_le_sqrt hcs

/-- Membership in an insertion step. -/
theorem mem_insertDescBySim {x y : ScoredTrack} {l : List ScoredTrack} :
    y ∈ insertDescBySim x l ↔ y = x ∨ y ∈ l := by
  induction l with
  | nil => simp [insertDescBySim]
  | cons z zs ih =>
    rw [insertDescBySim]
    split
    · simp [List.mem_cons]
    · simp only [List.mem_cons, ih]
      tauto

/-- Inserting into a descending-sorted list keeps it descending-sorted. -/
theorem pairwise_insertDescBySim (x : ScoredTrack) (l : List ScoredTrack)
    (h : l.Pairwise (fun a b => b.similarity ≤ a.similarity)) :
    (insertDescBySim x l).Pairwise (fun a b => b.similarity ≤ a.similarity) := by
  induction l with
  | nil => simp [insertDescBySim]
  | cons z zs ih =>
    rcases List.pairwise_cons.1 h with ⟨hz, hzs⟩
    rw [insertDescBySim]
    split
    · next hcmp =>
      refine List.pairwise_cons.2 ⟨?_, h⟩
      intro w hw
      rcases List.mem_cons.1 hw with rfl | hw2
      · exact hcmp
      · exact (hz w hw2).trans hcmp
    · next hcmp =>
      push_neg at hcmp
      refine List.pairwise_cons.2 ⟨?_, ih hzs⟩
      intro w hw
      rcases mem_insertDescBySim.1 hw with rfl | hw2
      · exact hcmp.le
      · exact hz w hw2

/-- The sort of the scored-track list is descending-sorted in similarity. -/
theorem pairwise_sortBySimDesc (l : List ScoredTrack) :
    (sortBySimDesc l).Pairwise (fun a b => b.similarity ≤ a.similarity) := by
  induction l with
  | nil => simp [sortBySimDesc]
  | cons x xs ih => exact pairwise_insertDescBySim x (sortBySimDesc xs) ih

/-- Filtering one similarity class through an insertion step: the inserted element,
being earlier in input order, lands in front of its whole tie class. -/
theorem filter_insertDescBySim (x : ScoredTrack) (l : List ScoredTrack) (s : ℝ) :
    (insertDescBySim x l).filter (fun t => t.similarity = s) =
      if x.similarity = s then x :: l.filter (fun t => t.similarity = s)
      else l.filter (fun t => t.similarity = s) := by
  induction l with
  | nil =>
    by_cases hx : x.similarity = s <;> simp [insertDescBySim, List.filter_cons, hx]
  | cons z zs ih =>
    rw [insertDescBySim]
    split
    · next hcmp =>
      by_cases hx : x.similarity = s <;> simp [List.filter_cons, hx]
    · next hcmp =>
      push_neg at hcmp
      by_cases hz : z.similarity = s <;> by_cases hx : x.similarity = s
      · exact absurd (hz.trans hx.symm) (ne_of_gt hcmp)
      · simp [List.filter_cons, hz, hx, ih]
      · simp [List.filter_cons, hz, hx, ih]
      · simp [List.filter_cons, hz, hx, ih]

/-- Stability of the sort: each similarity class is kept in input order. -/
theorem filter_sortBySimDesc (l : List ScoredTrack) (s : ℝ) :
    (sortBySimDesc l).filter (fun t => t.similarity = s) =
      l.filter (fun t => t.similarity = s) := by
  induction l with
  | nil => rfl
  | cons x xs ih =>
    rw [sortBySimDesc, filter_insertDescBySim, ih]
    by_cases hx : x.similarity = s <;> simp [List.filter_cons, hx]

/-- Python slicing `l[:limit]` is always a take of some length. -/
theorem pyTakeSlice_eq_take (limit : ℤ) (l : List α) :
    ∃ n, pyTakeSlice limit l = l.take n := by
  rw [pyTakeSlice]
  split
  · exact ⟨limit.toNat, rfl⟩
  · exact ⟨l.length - (-limit).toNat, rfl⟩

/-- Elements of a slice come from the sliced list. -/
theorem mem_pyTakeSlice {y : α} {limit : ℤ} {l : List α}
    (h : y ∈ pyTakeSlice limit l) : y ∈ l := by
  rcases pyTakeSlice_eq_take limit l with ⟨n, hn⟩
  rw [hn] at h
  exact List.take_subset n l h

/-- A slice by a nonnegative limit has at most `limit` elements. -/
theorem length_pyTakeSlice_le (limit : ℤ) (l : List α) (h : 0 ≤ limit) :
    ((pyTakeSlice limit l).length : ℤ) ≤ limit := by
  rw [pyTakeSlice, if_pos h]
  calc ((l.take limit.toNat).length : ℤ) ≤ (limit.toNat : ℤ) := by
        exact_mod_cast List.length_take_le limit.toNat l
    _ = limit := Int.toNat_of_nonneg h

/-- Characterization of the scored-track list: every scored entry arises from a raw
candidate whose preview features were successfully extracted, carries that preview
url, and is scored by cosine similarity of the reference with the key-restricted
extracted dict. -/
theorem mem_scoredTracksFor {t : ScoredTrack} {ref : FeatVec} {cands : List AppleTrack}
    {oracle : String → Option FeatVec} (h : t ∈ scoredTracksFor ref cands oracle) :
    ∃ track ∈ cands, ∃ feats preview_url,
      extract_preview_features_for_track oracle track = some (feats, preview_url) ∧
      t.preview_url = some preview_url ∧
      t.features = feats.filter (fun p => p.1 ∈ vecKeys ref) ∧
      t.similarity = cosine_similarity ref (feats.filter (fun p => p.1 ∈ vecKeys ref)) := by
  rcases List.mem_filterMap.1 h with ⟨track, htrack, heq⟩
  refine ⟨track, htrack, ?_⟩
  rcases hx : extract_preview_features_for_track oracle track with _ | ⟨feats, preview_url⟩
  · rw [hx] at heq
    cases heq
  · rw [hx] at heq
    refine ⟨feats, preview_url, rfl, ?_, ?_, ?_⟩ <;>
      · cases heq
        rfl

/-- Every successful preview extraction passes through the extraction oracle. -/
theorem extract_preview_features_oracle {oracle : String → Option FeatVec}
    {track : AppleTrack} {feats : FeatVec} {preview_url : String}
    (h : extract_preview_features_for_track oracle track = some (feats, preview_url)) :
    oracle preview_url = some feats := by
  rw [extract_preview_features_for_track] at h
  rcases hp : track.previews with _ | ⟨p, ps⟩ <;> rw [hp] at h
  · cases h
  · rcases p with _ | u <;> dsimp only at h
    · cases h
    · rcases hx : oracle u with _ | f <;> rw [hx] at h <;> dsimp only at h
      · cases h
      · cases h
        exact hx

/-- The clamp is bounded below by 0. -/
theorem clamp01_nonneg (x : ℝ) : 0 ≤ AudioFeatures.clamp01 x :=
  le_min zero_le_one (le_max_left 0 x)

/-- The clamp is bounded above by 1. -/
theorem clamp01_le_one (x : ℝ) : AudioFeatures.clamp01 x ≤ 1 := min_le_left 1 _

/-- Every dimension produced by the 6-dimensional semantic extractor is
nonnegative, given that the beat-tracked tempo is nonnegative (the clamped
dimensions are nonnegative whatever the raw measurements are). -/
theorem semantic_extractor_nonneg (sr : ℝ) (m : AudioFeatures.Measurements)
    (ht : 0 ≤ m.tempo) :
    ∀ p ∈ AudioFeatures.extract_features_from_audio_bytes sr m, 0 ≤ p.2 := by
  intro p hp
  rw [AudioFeatures.extract_features_from_audio_bytes] at hp
  simp only [List.mem_cons, List.mem_singleton] at hp
  rcases hp with rfl | rfl | rfl | rfl | rfl | rfl | hp
  · exact ht
  · exact clamp01_nonneg _
  · exact clamp01_nonneg _
  · exact sub_nonneg.2 (clamp01_le_one _)
  · have h1 : (0 : ℝ) ≤ 0.6 * AudioFeatures.clamp01 ((m.tempo - 60) / (180 - 60)) :=
      mul_nonneg (by norm_num) (clamp01_nonneg _)
    have h2 : (0 : ℝ) ≤ 0.4 * AudioFeatures.clamp01 (m.onsetMean / 10) :=
      mul_nonneg (by norm_num) (clamp01_nonneg _)
    exact add_nonneg h1 h2
  · exact le_refl 0
  · cases hp

/-- Every dimension produced by the 5-dimensional raw-spectral extractor is
nonnegative, given that the five librosa measurements (tempo, mean RMS, mean
zero-crossing rate, mean spectral centroid, mean spectral bandwidth) are
nonnegative, which they are by definition of those quantities. -/
theorem raw_extractor_nonneg (tempo energy zcr centroid bandwidth : ℝ)
    (h1 : 0 ≤ tempo) (h2 : 0 ≤ energy) (h3 : 0 ≤ zcr) (h4 : 0 ≤ centroid)
    (h5 : 0 ≤ bandwidth) :
    ∀ p ∈ StudentTracksMod.extract_features_from_audio_bytes tempo energy zcr
      centroid bandwidth, 0 ≤ p.2 := by
  intro p hp
  rw [StudentTracksMod.extract_features_from_audio_bytes] at hp
  simp only [List.mem_cons, List.mem_singleton] at hp
  rcases hp with rfl | rfl | rfl | rfl | rfl | hp
  · exact h1
  · exact h2
  · exact h3
  · exact h4
  · exact h5
  · cases hp

/-- A reference profile averaged from seed vectors with nonnegative values has
nonnegative values. -/
theorem reference_values_nonneg (vibe : String)
    (fetchFeats : String → String → Option FeatVec)
    (hf : ∀ id url f, fetchFeats id url = some f → ∀ p ∈ f, 0 ≤ p.2)
    (ref : FeatVec) (h : get_reference_features_for_vibe vibe fetchFeats = some ref) :
    ∀ p ∈ ref, 0 ≤ p.2 := by
  rw [get_reference_features_for_vibe] at h
  split_ifs at h with h1 h2
  rcases Option.some_inj.1 h with rfl
  intro p hp
  rcases List.mem_map.1 hp with ⟨k, _, rfl⟩
  apply div_nonneg _ (Nat.cast_nonneg _)
  apply List.sum_nonneg
  intro x hx
  rcases List.mem_map.1 hx with ⟨f, hfmem, rfl⟩
  rcases List.mem_filterMap.1 hfmem with ⟨t, _, hft⟩
  exact vecGet_nonneg f k (hf t.id t.audio_url f hft)

/-- Values of a key-restricted dict are values of the original dict. -/
theorem filter_values_nonneg {f : FeatVec} (keys : List String)
    (hf : ∀ p ∈ f, 0 ≤ p.2) : ∀ p ∈ f.filter (fun p => p.1 ∈ keys), 0 ≤ p.2 :=
  fun p hp => hf p (List.mem_of_mem_filter hp)

/-- The sort is a permutation at the level of membership. -/
theorem mem_sortBySimDesc {y : ScoredTrack} {l : List ScoredTrack} :
    y ∈ sortBySimDesc l ↔ y ∈ l := by
  induction l with
  | nil => simp [sortBySimDesc]
  | cons x xs ih =>
    rw [sortBySimDesc, mem_insertDescBySim]
    simp [ih]

/-- The function `recommend_tracks_for_vibe` is exactly the slice of the stable sort of the
scored-track list (in the no-reference branches both sides are empty). -/
theorem recommend_eq_slice_sort (vibe storefront : String) (limit : ℤ)
    (fetchFeats : String → String → Option FeatVec)
    (searchOracle : String → String → ℕ → List AppleTrack)
    (extractOracle : String → Option FeatVec) :
    recommend_tracks_for_vibe vibe storefront limit fetchFeats searchOracle extractOracle =
      pyTakeSlice limit
        (sortBySimDesc (scoredFor vibe storefront fetchFeats searchOracle extractOracle)) := by
  rcases hr : get_reference_features_for_vibe vibe fetchFeats with _ | ref
  · simp only [recommend_tracks_for_vibe, scoredFor, hr]
    simp [sortBySimDesc, pyTakeSlice]
  · simp only [recommend_tracks_for_vibe, scoredFor, hr]
    split
    · simp [sortBySimDesc, pyTakeSlice]
    · rfl

/-- Every track in the pre-sort scored list carries a preview url. -/
theorem mem_scoredFor_preview {t : ScoredTrack} {vibe storefront : String}
    {fetchFeats : String → String → Option FeatVec}
    {searchOracle : String → String → ℕ → List AppleTrack}
    {extractOracle : String → Option FeatVec}
    (h : t ∈ scoredFor vibe storefront fetchFeats searchOracle extractOracle) :
    t.preview_url.isSome = true := by
  rcases hr : get_reference_features_for_vibe vibe fetchFeats with _ | ref <;>
    simp only [scoredFor, hr] at h
  · cases h
  · split at h
    · cases h
    · rcases mem_scoredTracksFor h with ⟨_, _, _, _, _, hpu, _, _⟩
      rw [hpu]
      rfl

/-- The retry wrapper always makes at least one attempt. -/
theorem refresh_attempts_pos (endpoint : ℕ → Option TokenResponse) :
    1 ≤ (refresh_access_token endpoint).2.1 := by
  rcases h1 : endpoint 1 with _ | r
  · rcases h2 : endpoint 2 with _ | r
    · rcases h3 : endpoint 3 with _ | r <;>
        simp [refresh_access_token, h1, h2, h3]
    · simp [refresh_access_token, h1, h2]
  · simp [refresh_access_token, h1]

/-- Claim C7: once the safety margin is breached, `ensure_valid_token` retries the
refresh call up to exactly 3 attempts with a fixed 1-second inter-attempt delay,
surfaces the failure only after all 3 attempts fail (with no store write), and on
any successful attempt, including success on the 3rd attempt after two failures,
writes the new access token and the recomputed expiry to the persistent store
exactly once and returns the refreshed credential to the original call. -/
theorem c7_refresh_retry_persist (now : ℚ) (user : UserToken)
    (endpoint : ℕ → Option TokenResponse)
    (hcold : ¬ now < (user.token_expires_at : ℚ) - 30) :
    ((endpoint 1 = none ∧ endpoint 2 = none ∧ endpoint 3 = none) →
      ensure_valid_token now user endpoint =
        { result := none, saves := 0, attempts := 3, waits := [1, 1] })
    ∧ (∀ r, endpoint 1 = some r →
      ensure_valid_token now user endpoint =
        { result := some { user with
            access_token := r.access_token,
            token_expires_at := ⌊now⌋ + r.expires_in.getD 3600 },
          saves := 1, attempts := 1, waits := [] })
    ∧ (∀ r, endpoint 1 = none → endpoint 2 = some r →
      ensure_valid_token now user endpoint =
        { result := some { user with
            access_token := r.access_token,
            token_expires_at := ⌊now⌋ + r.expires_in.getD 3600 },
          saves := 1, attempts := 2, waits := [1] })
    ∧ (∀ r, endpoint 1 = none → endpoint 2 = none → endpoint 3 = some r →
      ensure_valid_token now user endpoint =
        { result := some { user with
            access_token := r.access_token,
            token_expires_at := ⌊now⌋ + r.expires_in.getD 3600 },
          saves := 1, attempts := 3, waits := [1, 1] }) := by
  refine ⟨?_, ?_, ?_, ?_⟩
  · rintro ⟨h1, h2, h3⟩
    rw [ensure_valid_token, if_neg hcold]
    simp [refresh_access_token, h1, h2, h3]
  · intro r h1
    rw [ensure_valid_token, if_neg hcold]
    simp [refresh_access_token, h1]
  · intro r h1 h2
    rw [ensure_valid_token, if_neg hcold]
    simp [refresh_access_token, h1, h2]
  · intro r h1 h2 h3
    rw [ensure_valid_token, if_neg hcold]
    simp [refresh_access_token, h1, h2, h3]

/-- Witness for C7, on the scenario of the spec: the endpoint fails on attempts 1
and 2 and succeeds on attempt 3; the credential expiring in 10 seconds is refreshed,
persisted exactly once, with both waits slept. -/
theorem c7_refresh_retry_persist_witness :
    ¬ (1000 : ℚ) < ((userExpiring.token_expires_at : ℚ) - 30) ∧
    ensure_valid_token 1000 userExpiring endpointThirdTry =
      { result := some { userExpiring with
          access_token := "newtok",
          token_expires_at := 4600 },
        saves := 1, attempts := 3, waits := [1, 1] } := by
  have h := (c7_refresh_retry_persist 1000 userExpiring endpointThirdTry
    (by rw [show userExpiring.token_expires_at = 1010 from rfl]; norm_num)).2.2.2
    freshResponse rfl rfl rfl
  refine ⟨by rw [show userExpiring.token_expires_at = 1010 from rfl]; norm_num, ?_⟩
  rw [h]
  rfl

/-- Claim C8: a credential whose expiry lies strictly more than the 30-second
safety margin in the future is returned unchanged, with no refresh attempt and no
store write; a credential within the margin triggers at least one refresh attempt. -/
theorem c8_safety_margin (now : ℚ) (user : UserToken)
    (endpoint : ℕ → Option TokenResponse) :
    (now < (user.token_expires_at : ℚ) - 30 →
      ensure_valid_token now user endpoint =
        { result := some user, saves := 0, attempts := 0, waits := [] })
    ∧ ((user.token_expires_at : ℚ) - 30 ≤ now →
      1 ≤ (ensure_valid_token now user endpoint).attempts) := by
  constructor
  · intro h
    rw [ensure_valid_token, if_pos h]
  · intro h
    rw [ensure_valid_token, if_neg (not_lt.2 h)]
    have hp := refresh_attempts_pos endpoint
    rcases hr : refresh_access_token endpoint with ⟨_ | r, a, w⟩ <;>
      rw [hr] at hp <;> simp only [hr] <;> exact hp

/-- Witness for C8, on the examples of the spec: expiry 3600 seconds ahead bypasses
the refresh path entirely; expiry 10 seconds ahead triggers a refresh attempt. -/
theorem c8_safety_margin_witness :
    ensure_valid_token 1000 userFresh endpointFail =
      { result := some userFresh, saves := 0, attempts := 0, waits := [] } ∧
    1 ≤ (ensure_valid_token 1000 userExpiring endpointFail).attempts := by
  constructor
  · exact (c8_safety_margin 1000 userFresh endpointFail).1
      (by rw [show userFresh.token_expires_at = 4600 from rfl]; norm_num)
  · exact (c8_safety_margin 1000 userExpiring endpointFail).2
      (by rw [show userExpiring.token_expires_at = 1010 from rfl]; norm_num)

/-- Claim C9: cosine similarity of a dict with itself equals 1 exactly whenever at
least one key is shared with itself and the restricted norm is nonzero; and for any
pair of dicts sharing no key, or whose restricted norm accumulator is zero on either
side, cosine similarity returns exactly 0. -/
theorem c9_cosine_self_one_and_zero_cases (a b : FeatVec) :
    (sharedKeys a a ≠ [] → normOverA a a ≠ 0 → cosine_similarity a a = 1)
    ∧ (sharedKeys a b = [] ∨ normOverA a b = 0 ∨ normOverB a b = 0 →
        cosine_similarity a b = 0) :=
  ⟨fun h1 h2 => cosine_similarity_self a h1 h2,
   fun h => cosine_similarity_zero_cases a b h⟩

/-- Witness for C9 at a concrete dict: self-similarity of `{tempo: 2}` is 1, and
similarity of `{tempo: 2}` with the key-disjoint `{zcr: 1}` is 0. -/
theorem c9_cosine_self_one_and_zero_cases_witness :
    cosine_similarity [("tempo", (2 : ℝ))] [("tempo", (2 : ℝ))] = 1 ∧
    cosine_similarity [("tempo", (2 : ℝ))] [("zcr", (1 : ℝ))] = 0 := by
  have h := c9_cosine_self_one_and_zero_cases [("tempo", (2 : ℝ))] [("zcr", (1 : ℝ))]
  constructor
  · apply h.1
    · decide
    · have : normOverA [("tempo", (2 : ℝ))] [("tempo", (2 : ℝ))] = 4 := by
        norm_num [normOverA, sharedKeys, vecKeys, vecGet]
      rw [this]
      norm_num
  · apply h.2
    left
    decide

/-- Claim C2: for every vibe label whose matching seed set yields at least one
successfully extracted feature vector, `get_reference_features_for_vibe` returns a
vector in which each dimension equals the arithmetic mean of that dimension over
exactly the successfully extracted seed vectors (failed extractions are excluded
from both the sum and the divisor, since `seedFeatureList` drops them). In this
exact-real embedding equality is exact, which subsumes the float tolerance of the
claim. -/
theorem c2_reference_profile_is_mean (vibe : String)
    (fetchFeats : String → String → Option FeatVec)
    (h : seedFeatureList vibe fetchFeats ≠ []) :
    ∃ avg, get_reference_features_for_vibe vibe fetchFeats = some avg ∧
      ∀ k ∈ refVectorKeys, vecGet avg k = seedMean (seedFeatureList vibe fetchFeats) k := by
  have hcand : ¬ (get_student_tracks_for_vibe vibe).isEmpty = true := by
    intro hc
    apply h
    rw [seedFeatureList, List.isEmpty_iff.1 hc]
    rfl
  have hfl : ¬ (seedFeatureList vibe fetchFeats).isEmpty = true := by
    intro hc
    exact h (List.isEmpty_iff.1 hc)
  refine ⟨refVectorKeys.map (fun k => (k, seedMean (seedFeatureList vibe fetchFeats) k)),
    ?_, ?_⟩
  · rw [get_reference_features_for_vibe, if_neg hcand, if_neg hfl]
  · intro k hk
    exact vecGet_map_mem refVectorKeys _ k hk

/-- Witness for C2: with the focus seed extracting successfully to a concrete
vector, the reference profile exists and each dimension is the mean. -/
theorem c2_reference_profile_is_mean_witness :
    seedFeatureList "focus" fetchFocus ≠ [] ∧
    ∃ avg, get_reference_features_for_vibe "focus" fetchFocus = some avg ∧
      ∀ k ∈ refVectorKeys, vecGet avg k = seedMean (seedFeatureList "focus" fetchFocus) k := by
  have heq : seedFeatureList "focus" fetchFocus = [focusRawVec] := by rfl
  have hne : seedFeatureList "focus" fetchFocus ≠ [] := by
    rw [heq]
    exact List.cons_ne_nil _ _
  exact ⟨hne, c2_reference_profile_is_mean "focus" fetchFocus hne⟩

/-- Counterexample to claim C3 as stated: when the reference profile is NotFound
(here: every seed extraction fails), `recommend_tracks_for_vibe` returns a plain
empty list and the route answers with the success payload `ok` with zero tracks, so
the NotFound is not surfaced to the caller as a request-terminating failure. -/
theorem c3_notfound_counterexample :
    get_reference_features_for_vibe "focus" fetchNothing = none ∧
    recommend_tracks_for_vibe "focus" "us" 10 fetchNothing searchOne extractSem = [] ∧
    apple_recommend
        { user_token := none, vibe := "focus", storefront := "us", limit := 10 }
        fetchNothing searchOne extractSem =
      RouteResponse.ok "focus" 0 [] := by
  refine ⟨by rfl, by rfl, by rfl⟩

/-- Claim C3 as amended: for a vibe with zero case-insensitive seed matches, or
with every matching seed failing extraction, `get_reference_features_for_vibe`
returns NotFound (`none`); `recommend_tracks_for_vibe` then returns a successful
empty list, and the route reports ok with zero tracks — the NotFound is swallowed
into an empty success rather than propagated as a request-terminating failure. -/
theorem c3_notfound_amended (vibe storefront : String) (limit : ℤ) (ut : Option String)
    (fetchFeats : String → String → Option FeatVec)
    (searchOracle : String → String → ℕ → List AppleTrack)
    (extractOracle : String → Option FeatVec) :
    (get_student_tracks_for_vibe vibe = [] →
      get_reference_features_for_vibe vibe fetchFeats = none)
    ∧ ((∀ t ∈ get_student_tracks_for_vibe vibe, fetchFeats t.id t.audio_url = none) →
      get_reference_features_for_vibe vibe fetchFeats = none)
    ∧ (get_reference_features_for_vibe vibe fetchFeats = none →
      recommend_tracks_for_vibe vibe storefront limit fetchFeats searchOracle
          extractOracle = []
      ∧ (0 < limit →
        apple_recommend
            { user_token := ut, vibe := vibe, storefront := storefront,
              limit := limit }
            fetchFeats searchOracle extractOracle =
          RouteResponse.ok vibe 0 [])) := by
  refine ⟨?_, ?_, ?_⟩
  · intro h
    rw [get_reference_features_for_vibe, if_pos (by rw [h]; rfl)]
  · intro h
    have hfl : seedFeatureList vibe fetchFeats = [] := by
      rw [seedFeatureList]
      exact List.filterMap_eq_nil_iff.2 h
    by_cases hc : (get_student_tracks_for_vibe vibe).isEmpty = true
    · rw [get_reference_features_for_vibe, if_pos hc]
    · rw [get_reference_features_for_vibe, if_neg hc, if_pos (by rw [hfl]; rfl)]
  · intro h
    have hrec : recommend_tracks_for_vibe vibe storefront limit fetchFeats
        searchOracle extractOracle = [] := by
      simp only [recommend_tracks_for_vibe, h]
    refine ⟨hrec, ?_⟩
    intro hlim
    rw [apple_recommend, if_neg (not_le.2 hlim)]
    simp only [hrec]
    rfl

/-- Witness for C3 as amended: a vibe with no matching seed tracks yields NotFound,
an empty recommendation list, and an ok response with zero tracks. -/
theorem c3_notfound_amended_witness :
    get_reference_features_for_vibe "nosuchvibe" fetchFocus = none ∧
    recommend_tracks_for_vibe "nosuchvibe" "us" 10 fetchFocus searchOne extractSem = [] ∧
    apple_recommend
        { user_token := none, vibe := "nosuchvibe", storefront := "us", limit := 10 }
        fetchFocus searchOne extractSem =
      RouteResponse.ok "nosuchvibe" 0 [] := by
  have h := c3_notfound_amended "nosuchvibe" "us" 10 none fetchFocus searchOne extractSem
  have h1 := h.1 (by decide)
  exact ⟨h1, (h.2.2 h1).1, (h.2.2 h1).2 (by norm_num)⟩

/-- Claim C6: a request with `limit <= 0` is rejected by the route with the
InvalidArgument failure (HTTP 400), never a silent empty success; and the response
is identical for any collaborator oracles, i.e. the rejection happens before any
catalog-search or audio-fetch collaborator is consulted — no network call is
performed. -/
theorem c6_invalid_limit_rejected_no_network (body : AppleRecommendIn)
    (fetchFeats fetchFeats2 : String → String → Option FeatVec)
    (searchOracle searchOracle2 : String → String → ℕ → List AppleTrack)
    (extractOracle extractOracle2 : String → Option FeatVec)
    (h : body.limit ≤ 0) :
    apple_recommend body fetchFeats searchOracle extractOracle =
      RouteResponse.error 400 "limit must be > 0"
    ∧ apple_recommend body fetchFeats searchOracle extractOracle =
      apple_recommend body fetchFeats2 searchOracle2 extractOracle2 := by
  constructor
  · rw [apple_recommend, if_pos h]
  · rw [apple_recommend, if_pos h, apple_recommend, if_pos h]

/-- Witness for C6: limit 0 is rejected with HTTP 400 and the response does not
depend on the collaborator oracles. -/
theorem c6_invalid_limit_rejected_no_network_witness :
    ({ user_token := none, vibe := "focus", storefront := "us", limit := 0 } :
      AppleRecommendIn).limit ≤ 0 ∧
    (apple_recommend
        { user_token := none, vibe := "focus", storefront := "us", limit := 0 }
        fetchFocus searchOne extractSem =
        RouteResponse.error 400 "limit must be > 0"
      ∧ apple_recommend
          { user_token := none, vibe := "focus", storefront := "us", limit := 0 }
          fetchFocus searchOne extractSem =
        apple_recommend
          { user_token := none, vibe := "focus", storefront := "us", limit := 0 }
          fetchNothing searchTwo extractSem) :=
  ⟨by norm_num,
   c6_invalid_limit_rejected_no_network _ fetchFocus fetchNothing searchOne searchTwo
     extractSem extractSem (by norm_num)⟩

/-- Claim C1 fails on the code (code bug, anticipated by the design notes of the
spec): on a concrete run in which the focus reference profile is built by the
5-dimensional raw-spectral extractor and the candidate preview is analyzed by the
6-dimensional semantic extractor — exactly the two extractors wired together by
`recommend_tracks_for_vibe` via `get_reference_features_for_vibe` and
`extract_features_from_url` — the scored feature vector, and hence the key
set the cosine score is computed over, is `["tempo", "energy"]`: the proper
intersection of the two shapes, not the full fixed dimension set of either shape. -/
theorem c1_shape_mixing_bug :
    (recommend_tracks_for_vibe "focus" "us" 10 fetchFocus searchOne extractSem).map
        (fun t => vecKeys t.features) = [["tempo", "energy"]]
    ∧ (get_reference_features_for_vibe "focus" fetchFocus).map vecKeys =
        some refVectorKeys
    ∧ vecKeys semCandidateVec =
        ["tempo", "energy", "valence", "acousticness", "danceability",
          "instrumentalness"]
    ∧ ["tempo", "energy"] ≠ refVectorKeys
    ∧ ["tempo", "energy"] ≠ vecKeys semCandidateVec := by
  have hsem : vecKeys semCandidateVec =
      ["tempo", "energy", "valence", "acousticness", "danceability",
        "instrumentalness"] := by rfl
  refine ⟨by rfl, by rfl, hsem, by decide, ?_⟩
  rw [hsem]
  decide

/-- Claim C4: the output of `recommend_tracks_for_vibe` is sorted in non-increasing
order of similarity, and it is stable: for each score value, the returned tracks
with that score are an initial segment, in order, of the pre-sort scored list
`scoredFor`, which lists the scored candidates in input (candidate-list) order. -/
theorem c4_rank_sorted_and_stable (vibe storefront : String) (limit : ℤ)
    (fetchFeats : String → String → Option FeatVec)
    (searchOracle : String → String → ℕ → List AppleTrack)
    (extractOracle : String → Option FeatVec) :
    (recommend_tracks_for_vibe vibe storefront limit fetchFeats searchOracle
      extractOracle).Pairwise (fun a b => b.similarity ≤ a.similarity)
    ∧ ∀ s : ℝ, ∃ rest,
        (scoredFor vibe storefront fetchFeats searchOracle extractOracle).filter
            (fun t => t.similarity = s) =
          (recommend_tracks_for_vibe vibe storefront limit fetchFeats searchOracle
            extractOracle).filter (fun t => t.similarity = s) ++ rest := by
  rw [recommend_eq_slice_sort]
  constructor
  · rcases pyTakeSlice_eq_take limit
      (sortBySimDesc (scoredFor vibe storefront fetchFeats searchOracle extractOracle))
      with ⟨n, hn⟩
    rw [hn]
    exact List.Pairwise.sublist (List.take_sublist n _) (pairwise_sortBySimDesc _)
  · intro s
    rcases pyTakeSlice_eq_take limit
      (sortBySimDesc (scoredFor vibe storefront fetchFeats searchOracle extractOracle))
      with ⟨n, hn⟩
    rw [hn]
    refine ⟨((sortBySimDesc (scoredFor vibe storefront fetchFeats searchOracle
      extractOracle)).drop n).filter (fun t => t.similarity = s), ?_⟩
    rw [← filter_sortBySimDesc
      (scoredFor vibe storefront fetchFeats searchOracle extractOracle) s,
      ← List.filter_append, List.take_append_drop]

/-- Claim C5: for a positive limit, every track returned by
`recommend_tracks_for_vibe` carries a preview url (candidates lacking one are
skipped before scoring), and at most `limit` tracks are returned; fewer is a normal
result, not an error (the function has no failure channel here at all). -/
theorem c5_preview_and_limit (vibe storefront : String) (limit : ℤ)
    (fetchFeats : String → String → Option FeatVec)
    (searchOracle : String → String → ℕ → List AppleTrack)
    (extractOracle : String → Option FeatVec) (hlim : 0 < limit) :
    (recommend_tracks_for_vibe vibe storefront limit fetchFeats searchOracle
      extractOracle).Forall (fun t => t.preview_url.isSome = true)
    ∧ ((recommend_tracks_for_vibe vibe storefront limit fetchFeats searchOracle
      extractOracle).length : ℤ) ≤ limit := by
  rw [recommend_eq_slice_sort]
  constructor
  · rw [List.forall_iff_forall_mem]
    intro t ht
    exact mem_scoredFor_preview (mem_sortBySimDesc.1 (mem_pyTakeSlice ht))
  · exact length_pyTakeSlice_le limit _ hlim.le

/-- Witness for C5: with one preview-less candidate and one usable candidate, the
returned list keeps only the usable one and respects the limit. -/
theorem c5_preview_and_limit_witness :
    (0 : ℤ) < 5 ∧
    ((recommend_tracks_for_vibe "focus" "us" 5 fetchFocus searchTwo extractSem).Forall
        (fun t => t.preview_url.isSome = true)
      ∧ ((recommend_tracks_for_vibe "focus" "us" 5 fetchFocus searchTwo
        extractSem).length : ℤ) ≤ 5) :=
  ⟨by norm_num,
   c5_preview_and_limit "focus" "us" 5 fetchFocus searchTwo extractSem (by norm_num)⟩

/-- Claim C10: when the seed-fetch collaborator only ever returns outputs of the
raw-spectral extractor on nonnegative librosa measurements, and the preview
extraction collaborator only ever returns outputs of the semantic extractor on a
nonnegative beat-tracked tempo (the clamped dimensions are nonnegative for all
measurements), every similarity score attached to a returned track lies in [0, 1]
in exact arithmetic: the dot product of nonnegative vectors is nonnegative and by
the Cauchy-Schwarz inequality at most the product of the restricted norms. -/
theorem c10_similarity_unit_interval (vibe storefront : String) (limit : ℤ)
    (fetchFeats : String → String → Option FeatVec)
    (searchOracle : String → String → ℕ → List AppleTrack)
    (extractOracle : String → Option FeatVec)
    (hseed : ∀ id url f, fetchFeats id url = some f →
      ∃ tempo energy zcr centroid bandwidth,
        0 ≤ tempo ∧ 0 ≤ energy ∧ 0 ≤ zcr ∧ 0 ≤ centroid ∧ 0 ≤ bandwidth ∧
        f = StudentTracksMod.extract_features_from_audio_bytes tempo energy zcr
          centroid bandwidth)
    (hcand : ∀ url f, extractOracle url = some f →
      ∃ sr m, 0 ≤ AudioFeatures.Measurements.tempo m ∧
        f = AudioFeatures.extract_features_from_audio_bytes sr m) :
    (recommend_tracks_for_vibe vibe storefront limit fetchFeats searchOracle
      extractOracle).Forall (fun t => 0 ≤ t.similarity ∧ t.similarity ≤ 1) := by
  rw [recommend_eq_slice_sort, List.forall_iff_forall_mem]
  intro t ht
  have h1 := mem_sortBySimDesc.1 (mem_pyTakeSlice ht)
  rcases hr : get_reference_features_for_vibe vibe fetchFeats with _ | ref <;>
    simp only [scoredFor, hr] at h1
  · cases h1
  · split at h1
    · cases h1
    · rcases mem_scoredTracksFor h1 with ⟨track, _, feats, u, hx, hpu, hfv, hsim⟩
      have hrefnn : ∀ p ∈ ref, 0 ≤ p.2 := by
        refine reference_values_nonneg vibe fetchFeats ?_ ref hr
        intro id url f hf
        rcases hseed id url f hf with ⟨a1, a2, a3, a4, a5, b1, b2, b3, b4, b5, rfl⟩
        exact raw_extractor_nonneg a1 a2 a3 a4 a5 b1 b2 b3 b4 b5
      have ho : extractOracle u = some feats := extract_preview_features_oracle hx
      rcases hcand u feats ho with ⟨sr, m, hm, rfl⟩
      have hfvnn := filter_values_nonneg (vecKeys ref) (semantic_extractor_nonneg sr m hm)
      rw [hsim]
      exact cosine_similarity_mem_Icc ref _ hrefnn hfvnn

/-- Witness for C10: the concrete oracles factor through the two extractors on
nonnegative measurements, so every returned similarity is in [0, 1]. -/
theorem c10_similarity_unit_interval_witness :
    (recommend_tracks_for_vibe "focus" "us" 10 fetchFocus searchOne extractSem).Forall
      (fun t => 0 ≤ t.similarity ∧ t.similarity ≤ 1) := by
  apply c10_similarity_unit_interval
  · intro id url f hf
    simp only [fetchFocus] at hf
    split at hf
    · cases hf
      exact ⟨100, 1, 1, 2000, 1500, by norm_num, by norm_num, by norm_num,
        by norm_num, by norm_num, rfl⟩
    · cases hf
  · intro url f hf
    simp only [extractSem] at hf
    cases hf
    refine ⟨22050,
      { tempo := 120, rms := 0, centroid := 3000, rolloff := 5000, onsetMean := 2 },
      by norm_num, rfl⟩
